import Mathlib

/-
Verification development for GeoUtils.raster_tools (class Raster).

The Python source is shallowly embedded:
 - exact rational numbers stand for Python floats (all geometry in the
   source is exact on the inputs considered); they are represented by the
   kernel-computable fraction type Frac below, with value equality given
   by cross multiplication (Frac.qeq);
 - numpy arrays are finite nested lists (NpArr), tagged with a dtype name
   and their dimensionality (2-D or 3-D), as in the source;
 - the rasterio dataset behind self.ds is the Dataset structure: its
   metadata fields plus the full pixel grid;
 - methods that can raise become functions into Except PyError;
   mutation of self becomes returning the updated Raster value.
External rasterio/numpy collaborators (mask, window and transform
utilities, reproject, zeros) are modelled from their documented contracts
as summarised in the specification, section 6; everything else is
translated directly from GeoUtils/raster_tools.py.
-/

namespace GeoUtils

/-- Exact fraction num/den over Int. Values produced by the operations
below keep den positive (sfix); equality of values is qeq. -/
structure Frac where
  num : Int
  den : Int
deriving DecidableEq, Repr

/-- Normalise the sign so that the denominator is nonnegative. -/
def Frac.sfix (q : Frac) : Frac :=
  if q.den < 0 then ⟨-q.num, -q.den⟩ else q

def Frac.fadd (a b : Frac) : Frac := ⟨a.num * b.den + b.num * a.den, a.den * b.den⟩

def Frac.fsub (a b : Frac) : Frac := ⟨a.num * b.den - b.num * a.den, a.den * b.den⟩

def Frac.fmul (a b : Frac) : Frac := ⟨a.num * b.num, a.den * b.den⟩

def Frac.fdiv (a b : Frac) : Frac := Frac.sfix ⟨a.num * b.den, a.den * b.num⟩

def Frac.fneg (a : Frac) : Frac := ⟨-a.num, a.den⟩

instance : Add Frac := ⟨Frac.fadd⟩

instance : Sub Frac := ⟨Frac.fsub⟩

instance : Mul Frac := ⟨Frac.fmul⟩

instance : Div Frac := ⟨Frac.fdiv⟩

instance : Neg Frac := ⟨Frac.fneg⟩

instance (k : Nat) : OfNat Frac k := ⟨⟨Int.ofNat k, 1⟩⟩

def Frac.ofInt (k : Int) : Frac := ⟨k, 1⟩

/-- Value equality of fractions: cross multiplication. -/
def Frac.qeq (a b : Frac) : Prop := a.num * b.den = b.num * a.den

instance (a b : Frac) : Decidable (a.qeq b) :=
  inferInstanceAs (Decidable (_ = _))

/-- Boolean less-or-equal on fractions (sign-normalised first). -/
def Frac.ble (a b : Frac) : Bool :=
  decide (a.sfix.num * b.sfix.den ≤ b.sfix.num * a.sfix.den)

def Frac.fmin (a b : Frac) : Frac := if a.ble b then a else b

def Frac.fmax (a b : Frac) : Frac := if a.ble b then b else a

/-- Mathematical floor of a fraction (0 for the degenerate zero denominator,
which the embedded code never reaches on the guarded paths). -/
def Frac.floor (q : Frac) : Int :=
  let s := q.sfix
  if s.den = 0 then 0 else s.num.fdiv s.den

/-- Mathematical ceiling of a fraction. -/
def Frac.ceil (q : Frac) : Int := -(Frac.floor ⟨-q.num, q.den⟩)

/-- Python int() applied to a float: truncation toward zero. -/
def pyInt (q : Frac) : Int :=
  if (Frac.ofInt 0).ble q then q.floor else q.ceil

/-- Decimal-free rendering of a fraction, used for the info text. -/
def Frac.str (q : Frac) : String := toString q.num ++ "/" ++ toString q.den

/-- Affine geotransform (a b c / d e f), as in affine.Affine: column and
row map to world coordinates x = a c + b r + c0, y = d c + e r + f. -/
structure Affine where
  a : Frac
  b : Frac
  c : Frac
  d : Frac
  e : Frac
  f : Frac
deriving DecidableEq, Repr

/-- Apply the transform to (col, row), giving world (x, y). -/
def Affine.apply (t : Affine) (col row : Frac) : Frac × Frac :=
  (t.a * col + t.b * row + t.c, t.d * col + t.e * row + t.f)

def Affine.det (t : Affine) : Frac := t.a * t.e - t.b * t.d

/-- Inverse transform (the tilde operator of the affine library); none when
the transform is degenerate. -/
def Affine.inv? (t : Affine) : Option Affine :=
  let dt := t.det
  if dt.qeq 0 then none
  else some ⟨t.e / dt, -t.b / dt, (t.b * t.f - t.e * t.c) / dt,
             -t.d / dt, t.a / dt, (t.d * t.c - t.a * t.f) / dt⟩

/-- Dimensionality of a numpy array returned by rasterio read: 2-D for a
single-band read, 3-D (band, row, col) otherwise. -/
inductive NpData where
  | d2 (rows : List (List Frac))
  | d3 (bands : List (List (List Frac)))
deriving DecidableEq, Repr

/-- A numpy array: its dtype name and its contents. -/
structure NpArr where
  dtype : String
  data : NpData
deriving DecidableEq, Repr

/-- Number of bands the load method derives from an array: shape[0] for a
3-D array, 1 otherwise (source lines 162-165). -/
def NpData.nbandsOf : NpData → Nat
  | .d3 bands => bands.length
  | .d2 _ => 1

/-- A 3-D grid has exact shape (n, h, w). -/
def gridShapeIs (g : List (List (List Frac))) (n h w : Nat) : Prop :=
  g.length = n ∧ ∀ b ∈ g, b.length = h ∧ ∀ row ∈ b, row.length = w

instance (g : List (List (List Frac))) (n h w : Nat) :
    Decidable (gridShapeIs g n h w) :=
  inferInstanceAs (Decidable (_ ∧ _))

/-- numpy.zeros((n, h, w), dtype): freshly zero-initialised 3-D buffer. -/
def npZeros (n h w : Nat) (dtype : String) : NpArr :=
  ⟨dtype, .d3 (List.replicate n (List.replicate h (List.replicate w 0)))⟩

/-- The Python exceptions the embedded code can raise. -/
inductive PyError where
  | assertionError (msg : String)
  | valueError (msg : String)
  | notImplementedError
  | attributeError (msg : String)
  | typeError (msg : String)
  | zeroDivisionError (msg : String)
  | indexError (msg : String)
  | rasterioError (msg : String)
deriving DecidableEq, Repr

/-- Configuration errors in the sense of the specification, section 7:
invalid mode (assert) or invalid cropGeom type (ValueError). -/
def PyError.isConfigError : PyError → Bool
  | .assertionError _ => true
  | .valueError _ => true
  | _ => false

/-- A mirrored attribute value (the union of the value shapes taken by the
attributes in the default list). -/
inductive AttrVal where
  | quad (b : Frac × Frac × Frac × Frac)
  | nat (n : Nat)
  | natPair (p : Nat × Nat)
  | natList (l : List Nat)
  | str (s : String)
  | strList (l : List String)
  | fracPair (p : Frac × Frac)
  | optFrac (o : Option Frac)
  | affine (t : Affine)
  | grid (g : List (List Nat))
deriving DecidableEq, Repr

/-- The profile dictionary self.ds.meta: the keyword arguments needed to
reopen an in-memory dataset (driver, dtype, nodata, width, height, count,
crs, transform). -/
structure Meta where
  driver : String
  dtype : String
  nodata : Option Frac
  width : Nat
  height : Nat
  count : Nat
  crs : Nat
  transform : Affine
deriving DecidableEq, Repr

/-- The rasterio dataset behind self.ds: metadata plus the stored pixel
grid (count bands of height x width). The crs is its EPSG code; name is
the in-memory identifier. -/
structure Dataset where
  driver : String
  dtype : String
  nodata : Option Frac
  width : Nat
  height : Nat
  count : Nat
  crs : Nat
  transform : Affine
  name : String
  data : List (List (List Frac))
deriving DecidableEq, Repr

def Dataset.meta (ds : Dataset) : Meta :=
  ⟨ds.driver, ds.dtype, ds.nodata, ds.width, ds.height, ds.count, ds.crs, ds.transform⟩

/-- Dataset bounds (left, bottom, right, top), from the transform applied
to the two extreme pixel corners. -/
def Dataset.bounds (ds : Dataset) : Frac × Frac × Frac × Frac :=
  let p0 := ds.transform.apply 0 0
  let p1 := ds.transform.apply (Frac.ofInt ds.width) (Frac.ofInt ds.height)
  (p0.1, p1.2, p1.1, p0.2)

/-- Dataset res (pixel width, pixel height), north-up case. -/
def Dataset.res (ds : Dataset) : Frac × Frac := (ds.transform.a, -ds.transform.e)

def Dataset.indexes (ds : Dataset) : List Nat :=
  (List.range ds.count).map (fun i => i + 1)

def Dataset.shape (ds : Dataset) : Nat × Nat := (ds.height, ds.width)

def Dataset.dtypes (ds : Dataset) : List String :=
  List.replicate ds.count ds.dtype

/-- dataset_mask: per pixel 0 where every band holds the nodata value,
255 elsewhere. -/
def Dataset.dataset_mask (ds : Dataset) : List (List Nat) :=
  (List.range ds.height).map (fun i => (List.range ds.width).map (fun j =>
    match ds.nodata with
    | none => 255
    | some nd =>
        if ds.data.all (fun band => ((band.getD i []).getD j nd) == nd) then 0 else 255))

/-- ds.read(): the whole grid as a 3-D array. -/
def Dataset.read (ds : Dataset) : NpArr := ⟨ds.dtype, .d3 ds.data⟩

/-- A band selection passed to read/load: a single index or a list of
indices (rasterio counts from 1). -/
inductive BandSel where
  | one (i : Nat)
  | many (l : List Nat)
deriving DecidableEq, Repr

/-- ds.read(bands): full read, single-band (2-D) read, or multi-band read;
an out-of-range index raises IndexError. -/
def Dataset.readSel (ds : Dataset) : Option BandSel → Except PyError NpArr
  | none => .ok ds.read
  | some (.one i) =>
      if 1 ≤ i ∧ i ≤ ds.count then .ok ⟨ds.dtype, .d2 (ds.data.getD (i - 1) [])⟩
      else .error (.indexError "band index out of range")
  | some (.many l) =>
      if l.all (fun i => decide (1 ≤ i) && decide (i ≤ ds.count)) then
        .ok ⟨ds.dtype, .d3 (l.map (fun i => ds.data.getD (i - 1) []))⟩
      else .error (.indexError "band index out of range")

/-- The default attribute list of raster_tools (module level constant). -/
def default_attrs : List String :=
  ["bounds", "count", "crs", "dataset_mask", "driver", "dtypes", "height",
   "indexes", "name", "nodata", "res", "shape", "transform", "width"]

/-- Lookup of an attribute name against the fourteen mirrored values (used
for both getattr on the dataset and the copies setattr leaves on the
handle, so that mirroring is copying by construction). -/
def attrTable (bounds : Frac × Frac × Frac × Frac) (count crs : Nat)
    (dmask : List (List Nat)) (driver : String) (dtypes : List String)
    (height : Nat) (indexes : List Nat) (name : String)
    (nodata : Option Frac) (res : Frac × Frac) (shape : Nat × Nat)
    (transform : Affine) (width : Nat) : String → Option AttrVal
  | "bounds" => some (.quad bounds)
  | "count" => some (.nat count)
  | "crs" => some (.nat crs)
  | "dataset_mask" => some (.grid dmask)
  | "driver" => some (.str driver)
  | "dtypes" => some (.strList dtypes)
  | "height" => some (.nat height)
  | "indexes" => some (.natList indexes)
  | "name" => some (.str name)
  | "nodata" => some (.optFrac nodata)
  | "res" => some (.fracPair res)
  | "shape" => some (.natPair shape)
  | "transform" => some (.affine transform)
  | "width" => some (.nat width)
  | _ => none

/-- getattr(ds, a) for the mirrored attribute names; none for a name the
model does not carry (getattr would raise AttributeError). -/
def Dataset.attr (ds : Dataset) : String → Option AttrVal :=
  attrTable ds.bounds ds.count ds.crs ds.dataset_mask ds.driver ds.dtypes
    ds.height ds.indexes ds.name ds.nodata ds.res ds.shape ds.transform ds.width

/-- The Raster handle. The dynamic setattr mirror of the source becomes
one typed field per default attribute; savedAttrs is self._saved_attrs.
data, nbands and isLoaded are the loading state of the handle. -/
structure Raster where
  filename : Option String
  ds : Dataset
  savedAttrs : List String
  bounds : Frac × Frac × Frac × Frac
  count : Nat
  crs : Nat
  dataset_mask : List (List Nat)
  driver : String
  dtypes : List String
  height : Nat
  indexes : List Nat
  name : String
  nodata : Option Frac
  res : Frac × Frac
  shape : Nat × Nat
  transform : Affine
  width : Nat
  data : Option NpArr
  nbands : Option Nat
  isLoaded : Bool
deriving DecidableEq, Repr

/-- The mirrored attributes of a handle, by name (the result of the
setattr copies). -/
def Raster.attr (r : Raster) : String → Option AttrVal :=
  attrTable r.bounds r.count r.crs r.dataset_mask r.driver r.dtypes
    r.height r.indexes r.name r.nodata r.res r.shape r.transform r.width

/-- The attribute-name list _read_attrs settles on: the default list when
none are given, else the caller list with the missing defaults appended
(source lines 82-91; the isinstance-str case arrives here as a singleton
list). -/
def attrListOf : Option (List String) → List String
  | none => default_attrs
  | some l => l ++ default_attrs.filter (fun a => decide (a ∉ l))

/-- Raster._read_attrs: record the saved attribute list and copy every
listed attribute from self.ds; a name the dataset does not carry raises
AttributeError (the model checks the whole list up front, the difference
from the source attribute-at-a-time loop is unobservable to the claims). -/
def Raster._read_attrs (r : Raster) (attrs : Option (List String)) :
    Except PyError Raster :=
  let al := attrListOf attrs
  if al.all (fun a => (r.ds.attr a).isSome) then
    .ok { r with
      savedAttrs := al,
      bounds := r.ds.bounds, count := r.ds.count, crs := r.ds.crs,
      dataset_mask := r.ds.dataset_mask, driver := r.ds.driver,
      dtypes := r.ds.dtypes, height := r.ds.height,
      indexes := r.ds.indexes, name := r.ds.name, nodata := r.ds.nodata,
      res := r.ds.res, shape := r.ds.shape, transform := r.ds.transform,
      width := r.ds.width }
  else .error (.attributeError "DatasetReader object has no such attribute")

/-- Raster.load (source lines 150-165): read the selected bands into
self.data and recompute self.nbands from the dimensionality of the result.
Note the source does not touch isLoaded here. -/
def Raster.load (r : Raster) (bands : Option BandSel) : Except PyError Raster :=
  match r.ds.readSel bands with
  | .error er => .error er
  | .ok arr => .ok { r with data := some arr, nbands := some arr.data.nbandsOf }

/-- The all-zero field state a Raster record starts from before
_read_attrs runs (and the default used when unwrapping sample results). -/
def blankRaster : Raster :=
  { filename := none,
    ds := ⟨"", "", none, 0, 0, 0, 0, ⟨1, 0, 0, 0, 1, 0⟩, "", []⟩,
    savedAttrs := [], bounds := (0, 0, 0, 0), count := 0, crs := 0,
    dataset_mask := [], driver := "", dtypes := [], height := 0,
    indexes := [], name := "", nodata := none, res := (0, 0),
    shape := (0, 0), transform := ⟨1, 0, 0, 0, 1, 0⟩, width := 0,
    data := none, nbands := none, isLoaded := false }

/-- Raster.__init__ (source lines 30-65): the opened in-memory dataset is
the ds argument (file I/O is outside the model); mirror the attributes,
then either load eagerly and set isLoaded, or leave data and nbands unset. -/
def Raster.init (filename : String) (ds : Dataset)
    (attrs : Option (List String)) (load_data : Bool)
    (bands : Option BandSel) : Except PyError Raster :=
  let r0 := { blankRaster with filename := some filename, ds := ds }
  match r0._read_attrs attrs with
  | .error er => .error er
  | .ok r1 =>
      if load_data then
        match r1.load bands with
        | .error er => .error er
        | .ok r2 => .ok { r2 with isLoaded := true }
      else .ok { r1 with data := none, nbands := none, isLoaded := false }

/-- All values of an array, row-major. -/
def NpData.valuesOf : NpData → List Frac
  | .d2 rows => rows.flatten
  | .d3 bands => (bands.map List.flatten).flatten

/-- Values of band b of a 3-D array (the slice self.data with b fixed);
a 2-D array never reaches this path (nbands is 1 then). -/
def NpData.bandValues : NpData → Nat → List Frac
  | .d3 bands, b => (bands.getD b []).flatten
  | .d2 _, _ => []

def npNanmax (l : List Frac) : Frac := l.foldl Frac.fmax (l.headD 0)

def npNanmin (l : List Frac) : Frac := l.foldl Frac.fmin (l.headD 0)

def npNanmean (l : List Frac) : Frac :=
  (l.foldl Frac.fadd 0) / Frac.ofInt l.length

def insertAsc (x : Frac) : List Frac → List Frac
  | [] => [x]
  | y :: ys => if x.ble y then x :: y :: ys else y :: insertAsc x ys

def sortAsc (l : List Frac) : List Frac := l.foldr insertAsc []

def npNanmedian (l : List Frac) : Frac :=
  let s := sortAsc l
  let n := s.length
  if n % 2 = 1 then s.getD (n / 2) 0
  else (s.getD (n / 2 - 1) 0 + s.getD (n / 2) 0) / 2

/-- Modelled variance; the source prints the square root of this (numpy
nanstd), which leaves the rationals. No claim depends on the printed
value, so the model keeps the radicand. -/
def npNanstdSq (l : List Frac) : Frac :=
  let m := npNanmean l
  npNanmean (l.map (fun x => (x - m) * (x - m)))

/-- The five statistics lines for one list of values ({:.2f} formatting is
modelled by Frac.str). -/
def statBlock (l : List Frac) : String :=
  "[MAXIMUM]:          " ++ (npNanmax l).str ++ "\n" ++
  "[MINIMUM]:          " ++ (npNanmin l).str ++ "\n" ++
  "[MEDIAN]:           " ++ (npNanmedian l).str ++ "\n" ++
  "[MEAN]:             " ++ (npNanmean l).str ++ "\n" ++
  "[STD DEV]:          " ++ (npNanstdSq l).str ++ "\n"

/-- The statistics section of info (source lines 132-146): one block over
the whole array when nbands is 1, else one block per band. data is present
whenever this runs, and load always set nbands beside it. -/
def statsText (r : Raster) (arr : NpArr) : String :=
  if r.nbands = some 1 then statBlock arr.data.valuesOf
  else match r.nbands with
    | some nb =>
        String.join ((List.range nb).map (fun b =>
          "Band " ++ toString (b + 1) ++ ":" ++ statBlock (arr.data.bandValues b)))
    | none => ""

/-- Raster.info (source lines 110-148). The format placeholders are
resolved by direct concatenation; when statistics are requested the source
silently skips them unless self.data is present. -/
def Raster.info (r : Raster) (stats : Bool) : String :=
  let base :=
    "Driver:             " ++ r.driver ++ " \n" ++
    "File on disk:       " ++ (match r.filename with | some s => s | none => "None") ++ " \n" ++
    "RIO MemoryFile:     " ++ r.name ++ "\n" ++
    "Size:               " ++ toString r.width ++ ", " ++ toString r.height ++ "\n" ++
    "Coordinate System:  EPSG:" ++ toString r.crs ++ "\n" ++
    "NoData Value:       " ++ (match r.nodata with | some v => v.str | none => "None") ++ "\n" ++
    "Pixel Size:         " ++ r.res.1.str ++ ", " ++ r.res.2.str ++ "\n" ++
    "Upper Left Corner:  " ++ r.bounds.1.str ++ ", " ++ r.bounds.2.1.str ++ "\n" ++
    "Lower Right Corner: " ++ r.bounds.2.2.1.str ++ ", " ++ r.bounds.2.2.2.str ++ "\n"
  if stats then
    match r.data with
    | none => base
    | some arr => base ++ statsText r arr
  else base

/-- memfile.open(**metadata) followed by ds.write(imgdata): rasterio
accepts only a 3-D array whose shape matches the metadata exactly; the new
dataset then holds that grid (the in-memory identifier is modelled as the
empty string). -/
def dsWrite (m : Meta) (imgdata : NpArr) : Except PyError Dataset :=
  match imgdata.data with
  | .d2 _ => .error (.valueError "Source shape is inconsistent with given indexes")
  | .d3 g =>
      if gridShapeIs g m.count m.height m.width then
        .ok ⟨m.driver, m.dtype, m.nodata, m.width, m.height, m.count, m.crs,
             m.transform, "", g⟩
      else .error (.valueError "Source shape is inconsistent with the dataset shape")

/-- Raster._update (source lines 96-108): write the new image under the
new metadata into a fresh in-memory dataset, swap it in, re-mirror the
attributes, and reload the buffer when the handle was loaded. -/
def Raster._update (r : Raster) (imgdata : NpArr) (metadata : Meta) :
    Except PyError Raster :=
  match dsWrite metadata imgdata with
  | .error er => .error er
  | .ok ds2 =>
      match Raster._read_attrs { r with ds := ds2 } none with
      | .error er => .error er
      | .ok r2 => if r2.isLoaded then r2.load none else .ok r2

/-- numpy shape[1] of an array (rows of a 3-D array). -/
def NpData.dim1 : NpData → Nat
  | .d3 g => (g.headD []).length
  | .d2 rows => (rows.headD []).length

/-- numpy shape[2] of a 3-D array (columns). -/
def NpData.dim2 : NpData → Nat
  | .d3 g => ((g.headD []).headD []).length
  | .d2 _ => 0

/-- rasterio.windows.from_bounds(left, bottom, right, top, transform),
reduced to the pair the source uses: (window.height, window.width). Pixel
coordinates of the two extreme corners come from the inverse transform
(specification, section 6, window utilities). -/
def windowFromBounds (t : Affine) (left bottom right top : Frac) :
    Except PyError (Frac × Frac) :=
  match t.inv? with
  | none => .error (.rasterioError "transform is not invertible")
  | some ti =>
      let ps := ti.apply left top
      let pe := ti.apply right bottom
      .ok (pe.2 - ps.2, pe.1 - ps.1)

/-- rasterio.transform.from_bounds(west, south, east, north, width,
height): the north-up transform mapping that exact bounding box onto a
width x height grid; a zero dimension is a division by zero. -/
def transformFromBounds (west south east north : Frac) (width height : Int) :
    Except PyError Affine :=
  if width = 0 ∨ height = 0 then .error (.zeroDivisionError "division by zero")
  else .ok ⟨(east - west) / Frac.ofInt width, 0, west, 0,
            (south - north) / Frac.ofInt height, north⟩

/-- rasterio.mask.mask(ds, [rectangle], crop=True, all_touched=True),
modelled from the contract in the specification, section 6: the window of
all pixels touched by the rectangle (floor/ceil of the corner pixel
coordinates), clamped to the dataset, with the dataset values inside that
window and the window transform; disjoint extents raise. -/
def rioMask (ds : Dataset) (xmin ymin xmax ymax : Frac) :
    Except PyError (NpArr × Affine) :=
  match ds.transform.inv? with
  | none => .error (.rasterioError "transform is not invertible")
  | some ti =>
      let p1 := ti.apply xmin ymin
      let p2 := ti.apply xmin ymax
      let p3 := ti.apply xmax ymin
      let p4 := ti.apply xmax ymax
      let cmin := Frac.fmin (Frac.fmin p1.1 p2.1) (Frac.fmin p3.1 p4.1)
      let cmax := Frac.fmax (Frac.fmax p1.1 p2.1) (Frac.fmax p3.1 p4.1)
      let rmin := Frac.fmin (Frac.fmin p1.2 p2.2) (Frac.fmin p3.2 p4.2)
      let rmax := Frac.fmax (Frac.fmax p1.2 p2.2) (Frac.fmax p3.2 p4.2)
      let colStart := max 0 cmin.floor
      let colStop := min (ds.width : Int) cmax.ceil
      let rowStart := max 0 rmin.floor
      let rowStop := min (ds.height : Int) rmax.ceil
      if colStop ≤ colStart ∨ rowStop ≤ rowStart then
        .error (.valueError "Input shapes do not overlap raster.")
      else
        let h := (rowStop - rowStart).toNat
        let w := (colStop - colStart).toNat
        let g := ds.data.map (fun band =>
          (List.range h).map (fun i => (List.range w).map (fun j =>
            (band.getD (rowStart.toNat + i) []).getD (colStart.toNat + j) 0)))
        let p0 := ds.transform.apply (Frac.ofInt colStart) (Frac.ofInt rowStart)
        .ok (⟨ds.dtype, .d3 g⟩,
             ⟨ds.transform.a, ds.transform.b, p0.1,
              ds.transform.d, ds.transform.e, p0.2⟩)

/-- rasterio.warp.reproject(source, destination, ...), modelled from the
contract in the specification, section 6: fill the destination buffer by
nearest-neighbour resampling of the source under the two transforms (the
CRS is the same on both sides here), and return it with the destination
transform. Cells with no source pixel keep the zero the destination was
initialised with. -/
def rioReproject (source destination : NpArr)
    (src_transform dst_transform : Affine) (_src_crs _dst_crs : Nat) :
    NpArr × Affine :=
  match src_transform.inv?, destination.data with
  | some ti, .d3 g =>
      let srcBands := match source.data with | .d2 m => [m] | .d3 c => c
      let g2 := g.enum.map (fun bp => (bp.2.enum.map (fun ip =>
        (ip.2.enum.map (fun jp =>
          let p := dst_transform.apply (Frac.ofInt jp.1 + Frac.mk 1 2)
                                       (Frac.ofInt ip.1 + Frac.mk 1 2)
          let q := ti.apply p.1 p.2
          let si := q.2.floor
          let sj := q.1.floor
          if 0 ≤ si ∧ 0 ≤ sj then
            ((srcBands.getD bp.1 []).getD si.toNat []).getD sj.toNat jp.2
          else jp.2)))))
      (⟨destination.dtype, .d3 g2⟩, dst_transform)
  | _, _ => (destination, dst_transform)

/-- The cropGeom argument of Raster.crop: another Raster, a Vector object
(vector_tools), a list or tuple of coordinates, or any other object. -/
inductive CropGeom where
  | raster (r : Raster)
  | vector
  | coords (l : List Frac)
  | other
deriving DecidableEq

def modeAssertMsg : String := "mode must be one of match_pixel, match_extent"

def cropGeomMsg : String := "cropGeom must be a Raster, Vector, or list of coordinates."

/-- The body of Raster.crop after the bounds have been extracted (source
lines 191-221), for both modes. The match_extent branch follows the
evaluation order of the source statement by statement: window, int
truncations, from_bounds (zero dimension raises), the np.zeros call whose
dtype argument dereferences self.data (AttributeError when data is None,
before anything else can fail), then reproject and _update. -/
def cropBounds (r : Raster) (xmin ymin xmax ymax : Frac) (mode : String) :
    Except PyError Raster :=
  let meta := r.ds.meta
  if mode = "match_pixel" then
    match rioMask r.ds xmin ymin xmax ymax with
    | .error er => .error er
    | .ok mk =>
        r._update mk.1 { meta with height := mk.1.data.dim1,
                                   width := mk.1.data.dim2, transform := mk.2 }
  else
    match windowFromBounds r.transform xmin ymin xmax ymax with
    | .error er => .error er
    | .ok wv =>
        let new_height := pyInt wv.1
        let new_width := pyInt wv.2
        match transformFromBounds xmin ymin xmax ymax new_width new_height with
        | .error er => .error er
        | .ok new_tfm =>
            match r.data with
            | none => .error (.attributeError "NoneType object has no attribute dtype")
            | some arr =>
                if r.isLoaded then
                  match r.nbands with
                  | none => .error (.typeError "None cannot be interpreted as an integer")
                  | some nb =>
                      if new_height < 0 ∨ new_width < 0 then
                        .error (.valueError "negative dimensions are not allowed")
                      else
                        let new_img := npZeros nb new_height.toNat new_width.toNat arr.dtype
                        let rp := rioReproject arr new_img r.transform new_tfm r.crs r.crs
                        r._update rp.1 { meta with height := new_height.toNat,
                                                   width := new_width.toNat,
                                                   transform := rp.2 }
                else
                  if new_height < 0 ∨ new_width < 0 then
                    .error (.valueError "negative dimensions are not allowed")
                  else
                    let new_img := npZeros r.count new_height.toNat new_width.toNat arr.dtype
                    let rp := rioReproject arr new_img r.transform new_tfm r.crs r.crs
                    r._update rp.1 { meta with height := new_height.toNat,
                                               width := new_width.toNat,
                                               transform := rp.2 }

/-- Raster.crop (source lines 167-221): assert the mode, dispatch on the
type of cropGeom (a Raster uses its mirrored bounds; a Vector raises
NotImplementedError; a list or tuple must unpack into four coordinates;
anything else raises ValueError), then run the selected mode and swap the
result in through _update. -/
def Raster.crop (r : Raster) (cropGeom : CropGeom) (mode : String) :
    Except PyError Raster :=
  if mode = "match_extent" ∨ mode = "match_pixel" then
    match cropGeom with
    | .raster cg =>
        cropBounds r cg.bounds.1 cg.bounds.2.1 cg.bounds.2.2.1 cg.bounds.2.2.2 mode
    | .vector => .error .notImplementedError
    | .coords l =>
        match l with
        | [xmin, ymin, xmax, ymax] => cropBounds r xmin ymin xmax ymax mode
        | _ => .error (.valueError "cannot unpack cropGeom into xmin, ymin, xmax, ymax")
    | .other => .error (.valueError cropGeomMsg)
  else .error (.assertionError modeAssertMsg)

/-- A concrete single-band 2 x 2 dataset: 5-unit pixels, bounds
(0, 0, 10, 10). -/
def dsA : Dataset :=
  ⟨"GTiff", "uint8", none, 2, 2, 1, 32633,
   ⟨5, 0, 0, 0, -5, 10⟩, "memA", [[[1, 2], [3, 4]]]⟩

/-- A concrete single-band 1 x 1 dataset: 2-unit pixel, bounds
(0, 0, 2, 2). -/
def dsB : Dataset :=
  ⟨"GTiff", "uint8", none, 1, 1, 1, 32633,
   ⟨2, 0, 0, 0, -2, 2⟩, "memB", [[[7]]]⟩

/-- A freshly constructed handle over dsA without eager loading. -/
def rU : Raster := (Raster.init "a.tif" dsA none false none).toOption.getD blankRaster

/-- A handle over dsA constructed with load_data=True. -/
def rL : Raster := (Raster.init "a.tif" dsA none true none).toOption.getD blankRaster

/-- A handle over dsB built without eager loading whose load method was
then called directly: data is present but isLoaded stayed False (load
never sets the flag; only the constructor does). -/
def rM : Raster :=
  (((Raster.init "b.tif" dsB none false none).toOption.getD blankRaster).load
    none).toOption.getD blankRaster

instance {ε α : Type} [DecidableEq ε] [DecidableEq α] : DecidableEq (Except ε α) := fun
  | .error a, .error b =>
      if h : a = b then .isTrue (by rw [h])
      else .isFalse (by intro hh; cases hh; exact h rfl)
  | .error _, .ok _ => .isFalse (by intro hh; cases hh)
  | .ok _, .error _ => .isFalse (by intro hh; cases hh)
  | .ok a, .ok b =>
      if h : a = b then .isTrue (by rw [h])
      else .isFalse (by intro hh; cases hh; exact h rfl)

/-- _read_attrs with the default attribute list always succeeds and copies
every default attribute from the current dataset. -/
theorem read_attrs_none (r : Raster) :
    r._read_attrs none = .ok { r with
      savedAttrs := default_attrs,
      bounds := r.ds.bounds, count := r.ds.count, crs := r.ds.crs,
      dataset_mask := r.ds.dataset_mask, driver := r.ds.driver,
      dtypes := r.ds.dtypes, height := r.ds.height,
      indexes := r.ds.indexes, name := r.ds.name, nodata := r.ds.nodata,
      res := r.ds.res, shape := r.ds.shape, transform := r.ds.transform,
      width := r.ds.width } := rfl

/-- Everything a successful _update guarantees: the loading flag survives,
a loaded handle gets its buffer re-read from the new dataset, an unloaded
one keeps its old buffer; the new dataset is exactly the written metadata
plus a grid of the metadata shape; the mirrored bounds and transform come
from the new dataset. -/
theorem update_char (r : Raster) (img : NpArr) (m : Meta) (r2 : Raster)
    (h : r._update img m = .ok r2) :
    r2.isLoaded = r.isLoaded ∧
    (r2.isLoaded = true → r2.data = some r2.ds.read) ∧
    (r2.isLoaded = false → r2.data = r.data) ∧
    r2.ds.driver = m.driver ∧ r2.ds.dtype = m.dtype ∧
    r2.ds.nodata = m.nodata ∧ r2.ds.crs = m.crs ∧
    r2.ds.count = m.count ∧ r2.ds.width = m.width ∧
    r2.ds.height = m.height ∧ r2.ds.transform = m.transform ∧
    r2.bounds = r2.ds.bounds ∧ r2.transform = r2.ds.transform ∧
    gridShapeIs r2.ds.data m.count m.height m.width := by
  unfold Raster._update at h
  split at h
  case _ => exact absurd h (by simp)
  case _ ds2 hw =>
    rw [read_attrs_none] at h
    simp only [] at h
    unfold dsWrite at hw
    split at hw
    case _ => exact absurd hw (by simp)
    case _ g hg =>
      split at hw
      case isFalse => exact absurd hw (by simp)
      case isTrue hshape =>
        injection hw with hw
        subst hw
        split at h
        case isTrue hl =>
          unfold Raster.load Dataset.readSel at h
          simp only [] at h
          injection h with h
          subst h
          have hl2 : r.isLoaded = true := by simpa using hl
          refine ⟨rfl, fun _ => rfl, fun hfalse => ?_, rfl, rfl, rfl, rfl,
                  rfl, rfl, rfl, rfl, rfl, rfl, hshape⟩
          simp only [hl2] at hfalse
          cases hfalse
        case isFalse hl =>
          injection h with h
          subst h
          have hl2 : r.isLoaded = false := by
            have h3 := hl
            simp only [Bool.not_eq_true] at h3
            simpa using h3
          refine ⟨rfl, fun hc => ?_, fun _ => rfl, rfl, rfl, rfl, rfl,
                  rfl, rfl, rfl, rfl, rfl, rfl, hshape⟩
          simp only [hl2] at hc
          cases hc

/-- Every successful cropBounds run commits through _update, and the
metadata it writes is self.ds.meta with only height, width and transform
replaced. -/
theorem cropBounds_ok (r : Raster) (xmin ymin xmax ymax : Frac)
    (mode : String) (r2 : Raster)
    (h : cropBounds r xmin ymin xmax ymax mode = .ok r2) :
    ∃ img m, r._update img m = .ok r2 ∧
      m.driver = r.ds.driver ∧ m.dtype = r.ds.dtype ∧
      m.nodata = r.ds.nodata ∧ m.crs = r.ds.crs ∧ m.count = r.ds.count := by
  unfold cropBounds at h
  repeat' (first | split at h | simp only [] at h)
  all_goals first
    | exact absurd h (by simp)
    | exact h.elim
    | exact ⟨_, _, h, rfl, rfl, rfl, rfl, rfl⟩

/-- Every successful crop run commits through _update with metadata whose
driver, dtype, nodata, crs and count are the pre-crop ones. -/
theorem crop_ok (r : Raster) (g : CropGeom) (mode : String) (r2 : Raster)
    (h : r.crop g mode = .ok r2) :
    ∃ img m, r._update img m = .ok r2 ∧
      m.driver = r.ds.driver ∧ m.dtype = r.ds.dtype ∧
      m.nodata = r.ds.nodata ∧ m.crs = r.ds.crs ∧ m.count = r.ds.count := by
  unfold Raster.crop at h
  repeat' split at h
  all_goals first
    | exact absurd h (by simp)
    | exact cropBounds_ok _ _ _ _ _ _ _ h

/-- Claim C1 (failing part, evaluated): on a freshly constructed handle
that never loaded its buffer, crop in match_extent mode does not succeed
with the band count taken from the dataset: the source dereferences
self.data.dtype while self.data is None, so the call raises
AttributeError. This is the latent bug the specification flags. -/
theorem claim_c1_unloaded_match_extent_raises :
    rU.crop (CropGeom.coords [0, 0, 10, 10]) "match_extent"
      = .error (.attributeError "NoneType object has no attribute dtype") := by
  decide

/-- Claim C2: for every handle and every mode string outside match_pixel
and match_extent, crop fails with the configuration (assertion) error. In
this pure embedding an error result returns no new handle, which is the
non-mutation half of the claim: the callers handle is untouched. -/
theorem claim_c2_invalid_mode (r : Raster) (g : CropGeom) (mode : String)
    (h1 : mode ≠ "match_extent") (h2 : mode ≠ "match_pixel") :
    r.crop g mode = .error (.assertionError modeAssertMsg) := by
  unfold Raster.crop
  exact if_neg (fun hc => hc.elim h1 h2)

theorem claim_c2_witness :
    rL.crop (CropGeom.coords [0, 0, 10, 10]) "epsg_mode"
      = .error (.assertionError modeAssertMsg) :=
  claim_c2_invalid_mode rL (CropGeom.coords [0, 0, 10, 10]) "epsg_mode"
    (by decide) (by decide)

/-- Claim C3: after any successful crop, in either mode, the isLoaded flag
equals its pre-crop value, and when it is true the pixel buffer is a fresh
full read of the new (cropped) backing dataset. -/
theorem claim_c3_isLoaded_preserved (r : Raster) (g : CropGeom)
    (mode : String) (r2 : Raster) (h : r.crop g mode = .ok r2) :
    r2.isLoaded = r.isLoaded ∧
    (r.isLoaded = true → r2.data = some r2.ds.read) := by
  obtain ⟨img, m, hu, -⟩ := crop_ok r g mode r2 h
  obtain ⟨h1, h2, -⟩ := update_char r img m r2 hu
  exact ⟨h1, fun hl => h2 (h1.trans hl)⟩

def rLc : Raster :=
  (rL.crop (CropGeom.coords [0, 0, 10, 10]) "match_extent").toOption.getD blankRaster

theorem claim_c3_witness :
    rLc.isLoaded = rL.isLoaded ∧
    (rL.isLoaded = true → rLc.data = some rLc.ds.read) :=
  claim_c3_isLoaded_preserved rL (CropGeom.coords [0, 0, 10, 10])
    "match_extent" rLc (by decide)

/-- Claim C4, counterexample: with an invalid mode string, crop on a
vector-geometry cropGeom raises the mode assertion error, not
NotImplementedError (the assert runs before the cropGeom dispatch), so the
claim does not hold for every mode argument. -/
theorem claim_c4_counterexample :
    rU.crop CropGeom.vector "bogus" = .error (.assertionError modeAssertMsg) ∧
    rU.crop CropGeom.vector "bogus" ≠ .error .notImplementedError := by
  decide

/-- Claim C4 as amended: for every handle and every mode that passes the
mode assertion, a vector-geometry cropGeom fails with NotImplementedError. -/
theorem claim_c4_vector_not_implemented (r : Raster) (mode : String)
    (h : mode = "match_extent" ∨ mode = "match_pixel") :
    r.crop CropGeom.vector mode = .error .notImplementedError := by
  unfold Raster.crop
  rw [if_pos h]

theorem claim_c4_witness :
    rU.crop CropGeom.vector "match_pixel" = .error .notImplementedError :=
  claim_c4_vector_not_implemented rU "match_pixel" (Or.inr rfl)

/-- Claim C6, counterexample: on a handle with no loaded pixel buffer,
info with statistics requested does not fail; the source guards the
statistics block with self.data being present and silently returns the
statistics-free summary, identical to info without statistics. -/
theorem claim_c6_counterexample :
    rU.data = none ∧ rU.info true = rU.info false := ⟨rfl, rfl⟩

/-- Claim C6 as amended: for every handle without a loaded buffer,
requesting statistics is silently ignored and info returns the
statistics-free summary. -/
theorem claim_c6_info_stats_skipped (r : Raster) (h : r.data = none) :
    r.info true = r.info false := by
  simp [Raster.info, h]

theorem claim_c6_witness : rU.info true = rU.info false :=
  claim_c6_info_stats_skipped rU rfl

/-- Claim C7: a cropGeom that is neither a Raster, nor a coordinate
list/tuple, nor a Vector always fails with a configuration error
(assertion or ValueError), whatever the mode; in this pure embedding the
error return precedes any dataset construction or handle update. -/
theorem claim_c7_bad_cropgeom_config_error (r : Raster) (mode : String) :
    ∃ er, r.crop CropGeom.other mode = .error er ∧ er.isConfigError = true := by
  unfold Raster.crop
  by_cases h : mode = "match_extent" ∨ mode = "match_pixel"
  · exact ⟨.valueError cropGeomMsg, by rw [if_pos h], rfl⟩
  · exact ⟨.assertionError modeAssertMsg, by rw [if_neg h], rfl⟩

/-- Claim C8: every successful load recomputes the band count from the
dimensionality of the freshly read array (2-D gives 1, 3-D gives the
leading dimension), and the result does not depend on any previously
cached nbands value. -/
theorem claim_c8_load_nbands (r : Raster) (sel : Option BandSel)
    (r2 : Raster) (h : r.load sel = .ok r2) :
    (∃ arr, r2.data = some arr ∧ r2.nbands = some arr.data.nbandsOf) ∧
    ∀ m : Option Nat, ∃ r3,
      ({ r with nbands := m } : Raster).load sel = .ok r3 ∧
      r3.nbands = r2.nbands ∧ r3.data = r2.data := by
  unfold Raster.load at h ⊢
  cases hs : r.ds.readSel sel with
  | error er => rw [hs] at h; cases h
  | ok arr =>
      rw [hs] at h
      injection h with h
      subst h
      refine ⟨⟨arr, rfl, rfl⟩, fun m => ?_⟩
      have hs2 : ({ r with nbands := m } : Raster).ds.readSel sel = .ok arr := hs
      exact ⟨_, by rw [hs2], rfl, rfl⟩

def rUl : Raster := (rU.load (some (.one 1))).toOption.getD blankRaster

theorem claim_c8_witness :
    (∃ arr, rUl.data = some arr ∧ rUl.nbands = some arr.data.nbandsOf) ∧
    ∀ m : Option Nat, ∃ r3,
      ({ rU with nbands := m } : Raster).load (some (.one 1)) = .ok r3 ∧
      r3.nbands = rUl.nbands ∧ r3.data = rUl.data :=
  claim_c8_load_nbands rU (some (.one 1)) rUl (by decide)

/-- Membership in the attribute list _read_attrs builds from a caller
list: the union with the defaults. -/
theorem attrListOf_mem (l : List String) (a : String) :
    a ∈ attrListOf (some l) ↔ (a ∈ l ∨ a ∈ default_attrs) := by
  unfold attrListOf
  simp only [List.mem_append, List.mem_filter, decide_eq_true_eq]
  tauto

/-- Claim C9: for every caller-supplied attribute list at construction,
the set of mirrored attribute names is the union of that list with the
default list, and every mirrored attribute equals the corresponding value
of the opened dataset. -/
theorem claim_c9_attr_mirror (fn : String) (ds : Dataset) (l : List String)
    (ld : Bool) (bands : Option BandSel) (r : Raster)
    (h : Raster.init fn ds (some l) ld bands = .ok r) :
    (∀ a, a ∈ r.savedAttrs ↔ (a ∈ l ∨ a ∈ default_attrs)) ∧
    (∀ a, r.attr a = ds.attr a) := by
  unfold Raster.init Raster._read_attrs at h
  simp only [] at h
  by_cases hg : ((attrListOf (some l)).all fun a => (ds.attr a).isSome) = true
  · rw [if_pos hg] at h
    simp only [] at h
    cases ld with
    | false =>
        rw [if_neg Bool.false_ne_true] at h
        injection h with h
        subst h
        exact ⟨fun a => attrListOf_mem l a, fun a => rfl⟩
    | true =>
        rw [if_pos rfl] at h
        unfold Raster.load at h
        cases hs : (({ blankRaster with filename := some fn, ds := ds } :
            Raster)).ds.readSel bands with
        | error er => rw [hs] at h; cases h
        | ok arr =>
            rw [hs] at h
            simp only [] at h
            injection h with h
            subst h
            exact ⟨fun a => attrListOf_mem l a, fun a => rfl⟩
  · rw [if_neg hg] at h
    simp only [] at h
    cases h

def r9 : Raster :=
  (Raster.init "a.tif" dsA (some ["name", "width"]) false none).toOption.getD blankRaster

theorem claim_c9_witness :
    (∀ a, a ∈ r9.savedAttrs ↔ (a ∈ ["name", "width"] ∨ a ∈ default_attrs)) ∧
    (∀ a, r9.attr a = dsA.attr a) :=
  claim_c9_attr_mirror "a.tif" dsA ["name", "width"] false none r9 (by decide)

/-- Claim C10: after any successful crop, in either mode, the new backing
dataset keeps the pre-crop crs, nodata, driver, dtype and per-band dtypes
(and band count): the metadata written through _update is self.ds.meta
with only height, width and transform replaced. -/
theorem claim_c10_meta_preserved (r : Raster) (g : CropGeom) (mode : String)
    (r2 : Raster) (h : r.crop g mode = .ok r2) :
    r2.ds.crs = r.ds.crs ∧ r2.ds.nodata = r.ds.nodata ∧
    r2.ds.driver = r.ds.driver ∧ r2.ds.dtype = r.ds.dtype ∧
    r2.ds.count = r.ds.count ∧ r2.ds.dtypes = r.ds.dtypes := by
  obtain ⟨img, m, hu, hdriver, hdtype, hnodata, hcrs, hcount⟩ :=
    crop_ok r g mode r2 h
  obtain ⟨-, -, -, d1, d2, d3, d4, d5, -⟩ := update_char r img m r2 hu
  refine ⟨d4.trans hcrs, d3.trans hnodata, d1.trans hdriver,
          d2.trans hdtype, d5.trans hcount, ?_⟩
  unfold Dataset.dtypes
  rw [d5.trans hcount, d2.trans hdtype]

def rLp : Raster :=
  (rL.crop (CropGeom.coords [0, 0, 10, 10]) "match_pixel").toOption.getD blankRaster

theorem claim_c10_witness :
    rLp.ds.crs = rL.ds.crs ∧ rLp.ds.nodata = rL.ds.nodata ∧
    rLp.ds.driver = rL.ds.driver ∧ rLp.ds.dtype = rL.ds.dtype ∧
    rLp.ds.count = rL.ds.count ∧ rLp.ds.dtypes = rL.ds.dtypes :=
  claim_c10_meta_preserved rL (CropGeom.coords [0, 0, 10, 10]) "match_pixel"
    rLp (by decide)

theorem fracAdd_def (a b : Frac) :
    a + b = ⟨a.num * b.den + b.num * a.den, a.den * b.den⟩ := rfl

theorem fracSub_def (a b : Frac) :
    a - b = ⟨a.num * b.den - b.num * a.den, a.den * b.den⟩ := rfl

theorem fracMul_def (a b : Frac) :
    a * b = ⟨a.num * b.num, a.den * b.den⟩ := rfl

theorem fracDiv_def (a b : Frac) :
    a / b = Frac.sfix ⟨a.num * b.den, a.den * b.num⟩ := rfl

theorem fracQeq_def (a b : Frac) :
    a.qeq b ↔ a.num * b.den = b.num * a.den := Iff.rfl

theorem fracOfNat_def (k : Nat) :
    (OfNat.ofNat k : Frac) = ⟨Int.ofNat k, 1⟩ := rfl

/-- reproject always returns the destination transform as its second
component. -/
theorem rioReproject_snd (s d : NpArr) (t1 t2 : Affine) (c1 c2 : Nat) :
    (rioReproject s d t1 t2 c1 c2).2 = t2 := by
  unfold rioReproject
  split <;> rfl

/-- Division of an integer-valued fraction by a positive integer. -/
theorem fracDiv_int_pos (a b : Int) (hb : 0 < b) :
    (⟨a, 1⟩ : Frac) / ⟨b, 1⟩ = ⟨a, b⟩ := by
  rw [fracDiv_def]
  unfold Frac.sfix
  simp only [mul_one, one_mul]
  rw [if_neg (by omega)]

/-- The transform rasterio.transform.from_bounds(0, 0, 10, 10, nw, nh)
maps the corner pixels (0,0) and (nw,nh) exactly onto the corners of the
requested box, for positive integer dimensions. -/
theorem fromBounds_corners (nw nh : Int) (hnw : 0 < nw) (hnh : 0 < nh) :
    ∀ tf : Affine,
      tf = ⟨((10 : Frac) - 0) / Frac.ofInt nw, 0, 0, 0,
            ((0 : Frac) - 10) / Frac.ofInt nh, 10⟩ →
      (tf.apply 0 0).1.qeq 0 ∧ (tf.apply 0 0).2.qeq 10 ∧
      (tf.apply (Frac.ofInt nw.toNat) (Frac.ofInt nh.toNat)).1.qeq 10 ∧
      (tf.apply (Frac.ofInt nw.toNat) (Frac.ofInt nh.toNat)).2.qeq 0 := by
  intro tf htf
  have h10 : ((10 : Frac) - 0) = ⟨10, 1⟩ := by decide
  have hm10 : ((0 : Frac) - 10) = ⟨-10, 1⟩ := by decide
  have ha : ((10 : Frac) - 0) / Frac.ofInt nw = ⟨10, nw⟩ := by
    rw [h10]; exact fracDiv_int_pos 10 nw hnw
  have he : ((0 : Frac) - 10) / Frac.ofInt nh = ⟨-10, nh⟩ := by
    rw [hm10]; exact fracDiv_int_pos (-10) nh hnh
  have htn : ((nw.toNat : Int)) = nw := Int.toNat_of_nonneg hnw.le
  have htnh : ((nh.toNat : Int)) = nh := Int.toNat_of_nonneg hnh.le
  subst htf
  rw [ha, he]
  unfold Affine.apply Frac.ofInt
  simp only [fracAdd_def, fracMul_def, fracQeq_def, fracOfNat_def]
  refine ⟨by ring, by ring, ?_, ?_⟩
  · simp only [htn, htnh]; ring
  · simp only [htn, htnh]; ring

/-- Claim C5 as amended: for every handle, a successful crop with the raw
tuple (0, 0, 10, 10) in match_extent mode yields bounds exactly
(0, 0, 10, 10); and when the handle is in the loaded state, its pixel
buffer has shape (bands, new_height, new_width) with the dimensions the
integer truncations of the pixel window of those bounds under the
pre-crop transform. -/
theorem claim_c5_tuple_match_extent (r r2 : Raster) (wh ww : Frac)
    (hw : windowFromBounds r.transform 0 0 10 10 = .ok (wh, ww))
    (h : r.crop (CropGeom.coords [0, 0, 10, 10]) "match_extent" = .ok r2) :
    (r2.bounds.1.qeq 0 ∧ r2.bounds.2.1.qeq 0 ∧
     r2.bounds.2.2.1.qeq 10 ∧ r2.bounds.2.2.2.qeq 10) ∧
    (r.isLoaded = true → ∃ g, r2.data = some ⟨r2.ds.dtype, .d3 g⟩ ∧
       gridShapeIs g r.ds.count (pyInt wh).toNat (pyInt ww).toNat) := by
  unfold Raster.crop at h
  rw [if_pos (Or.inl rfl)] at h
  simp only [] at h
  unfold cropBounds at h
  rw [if_neg (by decide)] at h
  simp only [] at h
  rw [hw] at h
  simp only [] at h
  unfold transformFromBounds at h
  by_cases hz : (pyInt ww = 0 ∨ pyInt wh = 0)
  · rw [if_pos hz] at h; exact absurd h (by simp)
  · rw [if_neg hz] at h
    simp only [] at h
    cases hd : r.data with
    | none => rw [hd] at h; exact absurd h (by simp)
    | some arr =>
        rw [hd] at h
        simp only [] at h
        cases hil : r.isLoaded with
        | true =>
            rw [hil, if_pos rfl] at h
            cases hnb : r.nbands with
            | none => rw [hnb] at h; exact absurd h (by simp)
            | some nb =>
                rw [hnb] at h
                try simp only [] at h
                by_cases hneg : (pyInt wh < 0 ∨ pyInt ww < 0)
                · rw [if_pos hneg] at h; exact absurd h (by simp)
                · rw [if_neg hneg] at h
                  try simp only [] at h
                  obtain ⟨h0, hdat, -, -, -, -, -, -, hwd, hht, htr, hbnd, -, hshape⟩ :=
                    update_char _ _ _ _ h
                  have hnw : 0 < pyInt ww := by omega
                  have hnh : 0 < pyInt wh := by omega
                  have hcor := fromBounds_corners (pyInt ww) (pyInt wh) hnw hnh
                    r2.ds.transform (by rw [htr]; exact rioReproject_snd _ _ _ _ _ _)
                  constructor
                  · rw [hbnd]
                    unfold Dataset.bounds
                    rw [hwd, hht]
                    exact ⟨hcor.1, hcor.2.2.2, hcor.2.2.1, hcor.2.1⟩
                  · intro _
                    refine ⟨r2.ds.data, by rw [hdat (h0.trans hil)]; rfl, ?_⟩
                    exact hshape
        | false =>
            rw [hil, if_neg Bool.false_ne_true] at h
            by_cases hneg : (pyInt wh < 0 ∨ pyInt ww < 0)
            · rw [if_pos hneg] at h; exact absurd h (by simp)
            · rw [if_neg hneg] at h
              try simp only [] at h
              obtain ⟨h0, -, -, -, -, -, -, -, hwd, hht, htr, hbnd, -, -⟩ :=
                update_char _ _ _ _ h
              have hnw : 0 < pyInt ww := by omega
              have hnh : 0 < pyInt wh := by omega
              have hcor := fromBounds_corners (pyInt ww) (pyInt wh) hnw hnh
                r2.ds.transform (by rw [htr]; exact rioReproject_snd _ _ _ _ _ _)
              constructor
              · rw [hbnd]
                unfold Dataset.bounds
                rw [hwd, hht]
                exact ⟨hcor.1, hcor.2.2.2, hcor.2.2.1, hcor.2.1⟩
              · intro hl
                exact absurd hl (by simp [hil])

def rMc : Raster :=
  (rM.crop (CropGeom.coords [0, 0, 10, 10]) "match_extent").toOption.getD blankRaster

/-- Claim C5, counterexample: a handle whose load method was called
directly (so data is present but isLoaded stayed False) crops with
(0, 0, 10, 10) in match_extent mode successfully, yet its pixel buffer
afterwards is the stale pre-crop 1 x 1 x 1 array, not an array of the
claimed shape (bands, 5, 5) given by the window truncations. The claim as
stated, quantified over every handle, is therefore false. -/
theorem claim_c5_counterexample :
    rM.isLoaded = false ∧
    rM.crop (CropGeom.coords [0, 0, 10, 10]) "match_extent" = .ok rMc ∧
    windowFromBounds rM.transform 0 0 10 10
      = .ok (⟨20480, 4096⟩, ⟨20480, 4096⟩) ∧
    (pyInt ⟨20480, 4096⟩).toNat = 5 ∧
    rM.ds.count = 1 ∧
    rMc.data = some ⟨"uint8", NpData.d3 [[[7]]]⟩ ∧
    ¬ gridShapeIs [[[7]]] 1 5 5 := by decide

theorem claim_c5_witness :
    (rLc.bounds.1.qeq 0 ∧ rLc.bounds.2.1.qeq 0 ∧
     rLc.bounds.2.2.1.qeq 10 ∧ rLc.bounds.2.2.2.qeq 10) ∧
    (rL.isLoaded = true → ∃ g, rLc.data = some ⟨rLc.ds.dtype, .d3 g⟩ ∧
       gridShapeIs g rL.ds.count (pyInt ⟨488281250, 244140625⟩).toNat
         (pyInt ⟨488281250, 244140625⟩).toNat) :=
  claim_c5_tuple_match_extent rL rLc ⟨488281250, 244140625⟩
    ⟨488281250, 244140625⟩ (by decide) (by decide)

end GeoUtils
